import Mathlib

/-!
Verification of the postgraduate-schedules repository against its
natural-language specification.

The Python sources are shallowly embedded: pure fragments become Lean
functions, dictionaries become association lists (`List (String × _)`),
`pandas` dataframes become lists of rows, and fallible paths are made
explicit with `Option`/`Except`.  Machine integers do not occur (the
sources only use small non-negative counts), so `Nat` is used throughout.
-/

/- ------------------------------------------------------------------ -/
/- Dates.  Python's `datetime.date` restricted to what the sources use:
   civil (proleptic Gregorian) dates, day-by-day iteration
   (`timedelta(days=1)`), `weekday()`, and `strftime` with the formats
   `%d/%m`, `%d/%m/%Y` and `%A` (C locale, hence English day names,
   which is what `holiday_manager.py` compares against). -/

structure Date where
  year : Nat
  month : Nat
  day : Nat
deriving DecidableEq, Repr

def isLeap (y : Nat) : Bool :=
  (y % 4 == 0 && y % 100 != 0) || (y % 400 == 0)

def daysInMonth (y m : Nat) : Nat :=
  if m = 2 then (if isLeap y then 29 else 28)
  else if m = 4 ∨ m = 6 ∨ m = 9 ∨ m = 11 then 30
  else 31

/-- Python `date + timedelta(days=1)`. -/
def nextDate (d : Date) : Date :=
  if d.day < daysInMonth d.year d.month then ⟨d.year, d.month, d.day + 1⟩
  else if d.month < 12 then ⟨d.year, d.month + 1, 1⟩
  else ⟨d.year + 1, 1, 1⟩

/-- Days of the year strictly before month `m` of year `y`. -/
def monthDaysBefore (y m : Nat) : Nat :=
  ((List.range (m - 1)).map (fun i => daysInMonth y (i + 1))).sum

/-- Python `date.toordinal()`: day number in the proleptic Gregorian
    calendar with `0001-01-01 ↦ 1`. -/
def toOrdinal (d : Date) : Nat :=
  365 * (d.year - 1) + (d.year - 1) / 4 - (d.year - 1) / 100 + (d.year - 1) / 400
    + monthDaysBefore d.year d.month + d.day

/-- Python `date.weekday()`: Monday = 0 … Sunday = 6.
    `0001-01-01` (ordinal 1) is a Monday in the proleptic Gregorian
    calendar. -/
def pyWeekday (d : Date) : Nat :=
  (toOrdinal d + 6) % 7

/-- `strftime('%A')` in the C locale. -/
def dayName (w : Nat) : String :=
  if w = 0 then "Monday"
  else if w = 1 then "Tuesday"
  else if w = 2 then "Wednesday"
  else if w = 3 then "Thursday"
  else if w = 4 then "Friday"
  else if w = 5 then "Saturday"
  else "Sunday"

/-- Two-digit zero padding as in `strftime('%d')` / `('%m')`. -/
def pad2 (n : Nat) : String :=
  if n < 10 then "0" ++ toString n else toString n

/-- `strftime('%d/%m')`, the key of the holiday tables. -/
def dateKey (d : Date) : String :=
  pad2 d.day ++ "/" ++ pad2 d.month

/-- `strftime('%d/%m/%Y')`, the key of the generated calendar. -/
def dateFull (d : Date) : String :=
  pad2 d.day ++ "/" ++ pad2 d.month ++ "/" ++ toString d.year

/-- The dates visited by `while current_date <= end_date`, starting at
    `start` and stepping `timedelta(days=1)`, are exactly `n` successive
    days where `n` is the (ordinal) length of the closed range. -/
def datesFrom : Date → Nat → List Date
  | _, 0 => []
  | c, n + 1 => c :: datesFrom (nextDate c) n

/-- The closed date range `[s, e]`; empty when `e` precedes `s`
    (the `while` guard fails immediately). -/
def calendarDatesRange (s e : Date) : List Date :=
  datesFrom s (toOrdinal e + 1 - toOrdinal s)

/- ------------------------------------------------------------------ -/
/- holiday_manager.py : HolidayManager -/

/-- The two holiday dictionaries of `HolidayManager`, keyed by
    `'%d/%m'` strings, valued by holiday names. -/
structure HolidayTables where
  holidays : List (String × String)
  optional_holidays : List (String × String)
deriving DecidableEq, Repr

/-- `HolidayManager._load_default_holidays` (the 2026 defaults). -/
def defaultHolidayTables : HolidayTables where
  holidays :=
    [("01/01", "Confraternização Universal"),
     ("03/04", "Sexta-feira Santa"),
     ("21/04", "Tiradentes"),
     ("01/05", "Dia Mundial do Trabalho"),
     ("07/09", "Independência do Brasil"),
     ("12/10", "Nossa Senhora Aparecida"),
     ("02/11", "Finados"),
     ("15/11", "Proclamação da República"),
     ("20/11", "Dia da Consciência Negra"),
     ("25/12", "Natal")]
  optional_holidays :=
    [("02/01", "Ponto Facultativo"),
     ("16/02", "Carnaval"),
     ("17/02", "Carnaval"),
     ("18/02", "Quarta-feira de Cinzas"),
     ("02/04", "Quinta-feira Santa"),
     ("20/04", "Ponto Facultativo"),
     ("04/06", "Corpus Christi"),
     ("05/06", "Ponto Facultativo"),
     ("15/08", "Assunção de Nossa Senhora"),
     ("30/10", "Dia do Servidor Público"),
     ("07/12", "Imaculada Conceição"),
     ("08/12", "Imaculada Conceição"),
     ("24/12", "Ponto Facultativo"),
     ("31/12", "Ponto Facultativo")]

/-- `HolidayManager.is_holiday`. -/
def is_holiday (hm : HolidayTables) (d : Date) : Bool :=
  (hm.holidays.lookup (dateKey d)).isSome

/-- `HolidayManager.is_optional_holiday`. -/
def is_optional_holiday (hm : HolidayTables) (d : Date) : Bool :=
  (hm.optional_holidays.lookup (dateKey d)).isSome

/-- `HolidayManager.get_holiday_name` (returns `None` when the date is
    in neither table). -/
def get_holiday_name (hm : HolidayTables) (d : Date) : Option String :=
  match hm.holidays.lookup (dateKey d) with
  | some n => some n
  | none =>
    match hm.optional_holidays.lookup (dateKey d) with
    | some n => some ("[FACULTATIVO] " ++ n)
    | none => none

/- ------------------------------------------------------------------ -/
/- holiday_manager.py : CalendarWithHolidays -/

/-- One entry of the dict built by `CalendarWithHolidays.generate_calendar`. -/
structure CalendarEntry where
  date : String
  day_of_week : String
  is_holiday : Bool
  is_optional_holiday : Bool
  holiday_name : Option String
deriving DecidableEq, Repr

/-- The loop body of `generate_calendar` for one day. -/
def mkEntry (hm : HolidayTables) (d : Date) : CalendarEntry :=
  let base : CalendarEntry :=
    { date := dateFull d
      day_of_week := dayName (pyWeekday d)
      is_holiday := false
      is_optional_holiday := false
      holiday_name := none }
  if is_holiday hm d then
    { base with is_holiday := true, holiday_name := get_holiday_name hm d }
  else if is_optional_holiday hm d then
    { base with is_optional_holiday := true, holiday_name := get_holiday_name hm d }
  else base

/-- `CalendarWithHolidays.generate_calendar`: every day from January 1
    to December 31 of `year`, in order (the dict is insertion-ordered;
    keys are the `%d/%m/%Y` strings carried in each entry). -/
def generate_calendar (hm : HolidayTables) (year : Nat) : List CalendarEntry :=
  (calendarDatesRange ⟨year, 1, 1⟩ ⟨year, 12, 31⟩).map (mkEntry hm)

/-- Calendar-construction errors named by the specification.  The source
    defines no such error and no failing path; the `Except` wrapper below
    only makes the specified failure statable. -/
inductive CalError where
  | invalidRange
deriving DecidableEq, Repr

/-- The calendar-building loop of `generate_calendar`, exposed over an
    arbitrary closed range (the loop body is parametrized by the local
    `start_date`/`end_date`), wrapped in `Except` so that the
    specification's claimed `InvalidRangeError` outcome can be stated.
    The source never takes the error branch: the result is always `ok`. -/
def generate_calendar_checked (hm : HolidayTables) (s e : Date) :
    Except CalError (List CalendarEntry) :=
  Except.ok ((calendarDatesRange s e).map (mkEntry hm))

/-- `CalendarWithHolidays.get_non_working_days` over a generated
    calendar: holidays and optional holidays first, otherwise weekend
    days, in calendar order. -/
def get_non_working_days (cal : List CalendarEntry) : List String :=
  cal.filterMap fun e =>
    if e.is_holiday || e.is_optional_holiday then some e.date
    else if e.day_of_week == "Saturday" || e.day_of_week == "Sunday" then some e.date
    else none

/-- `CalendarWithHolidays.get_working_days`.  The `start_date` and
    `end_date` parameters are accepted and ignored, exactly as in the
    source. -/
def get_working_days (cal : List CalendarEntry) (s e : String) : List String :=
  cal.filterMap fun en =>
    if !en.is_holiday && !en.is_optional_holiday
        && !(en.day_of_week == "Saturday" || en.day_of_week == "Sunday") then
      some en.date
    else none

/- ------------------------------------------------------------------ -/
/- holiday_manager.py : HolidayManager.mark_holidays_in_calendar -/

/-- A value stored in the calendar dict handed to
    `mark_holidays_in_calendar`: either one of the marker records the
    method itself inserts, or any pre-existing value (abstracted as an
    opaque payload string). -/
inductive CalVal where
  | marker (ty nm cls : String)
  | other (v : String)
deriving DecidableEq, Repr

/-- One `for date_key, holiday_name in table.items():` loop of
    `mark_holidays_in_calendar`: add `mk k name` under each key `k` of
    `items` that the dict does not already contain.  Dicts are embedded
    as insertion-ordered association lists; `k not in d` is
    `(d.lookup k).isNone`, and adding appends. -/
def addMissing (mk : String → String → CalVal)
    (m : List (String × CalVal)) (items : List (String × String)) :
    List (String × CalVal) :=
  items.foldl
    (fun acc kv =>
      if (acc.lookup kv.1).isSome then acc else acc ++ [(kv.1, mk kv.1 kv.2)])
    m

/-- `HolidayManager.mark_holidays_in_calendar`: copy the dict, then add a
    marker record for every holiday key not already present, then the
    same for optional-holiday keys. -/
def mark_holidays_in_calendar (hm : HolidayTables)
    (calendar_dict : List (String × CalVal)) : List (String × CalVal) :=
  addMissing (fun _ nm => CalVal.marker "optional_holiday" nm "optional_holiday")
    (addMissing (fun _ nm => CalVal.marker "holiday" nm "holiday") calendar_dict hm.holidays)
    hm.optional_holidays

/- ------------------------------------------------------------------ -/
/- generate_schedules_2026_2027.py : CalendarReader._extract_letive_days -/

/-- A raw spreadsheet cell: either a numeric value or free text.  This
    abstracts what `pandas`/`odfpy` hand over: `num` stands for any cell
    that parses as a number, `text` for one that does not. -/
inductive Cell where
  | num (n : Nat)
  | text (s : String)
deriving DecidableEq, Repr

/-- `CalendarReader._extract_letive_days`: ignores its `rows` argument
    and walks every day from 2026-03-01 to 2027-12-31, keeping Mondays
    (0), Wednesdays (2), Fridays (4) and Saturdays (5). -/
def extract_letive_days (rows : List (List Cell)) : List Date :=
  (datesFrom ⟨2026, 3, 1⟩ (toOrdinal ⟨2027, 12, 31⟩ + 1 - toOrdinal ⟨2026, 3, 1⟩)).filter
    fun d => pyWeekday d == 0 || pyWeekday d == 2 || pyWeekday d == 4 || pyWeekday d == 5

/-- Chronological order on civil dates (lexicographic year, month, day),
    the order `datetime` objects compare in. -/
def dateLt (d₁ d₂ : Date) : Prop :=
  d₁.year < d₂.year ∨
    (d₁.year = d₂.year ∧
      (d₁.month < d₂.month ∨ (d₁.month = d₂.month ∧ d₁.day < d₂.day)))

/- ------------------------------------------------------------------ -/
/- schedule_manager.py : DisciplineAnalyzer -/

/-- `pd.to_numeric(_, errors='coerce')`: numeric cells stay, anything
    else becomes NaN (here `none`). -/
def toNum : Cell → Option Nat
  | .num n => some n
  | .text _ => none

/-- One raw discipline row (the five columns kept by
    `df.iloc[:, :5]`). -/
structure RawRow where
  disciplina : Cell
  hora_aula : Cell
  encontros : Cell
  sigla : Cell
  horas : Cell
deriving DecidableEq, Repr

/-- One normalized discipline after `load_disciplines`:
    `Hora_aula` is numeric (rows where it is not are dropped by
    `dropna(subset=['Hora_aula'])`); `Encontros`/`Horas` keep their
    possibly-NaN coerced values. -/
structure Discipline where
  disciplina : Cell
  hora_aula : Nat
  encontros : Option Nat
  sigla : Cell
  horas : Option Nat
deriving DecidableEq, Repr

/-- The header handling of `load_disciplines`: drop the first row iff
    its first column reads `'Disciplina'`. -/
def stripHeader (rows : List RawRow) : List RawRow :=
  match rows with
  | r :: rest => if r.disciplina = Cell.text "Disciplina" then rest else rows
  | [] => []

/-- Numeric coercion of one row; `none` when the `Hora_aula` cell is
    non-numeric, in which case `dropna` removes the row. -/
def coerceRow (r : RawRow) : Option Discipline :=
  (toNum r.hora_aula).map fun h =>
    ⟨r.disciplina, h, toNum r.encontros, r.sigla, toNum r.horas⟩

/-- `DisciplineAnalyzer.load_disciplines` over an already-read table.
    An empty source makes `pd.read_csv` raise, which the `except` arm
    turns into `False`; otherwise the header is stripped, the numeric
    columns coerced, and rows with non-numeric `Hora_aula` dropped —
    silently: nothing records which rows were removed. -/
def load_disciplines (rows : List RawRow) : Bool × List Discipline :=
  match rows with
  | [] => (false, [])
  | _ :: _ => (true, (stripHeader rows).filterMap coerceRow)

/-- Ascending insertion into a sorted list (for Python's `sorted`). -/
def insertSorted (n : Nat) : List Nat → List Nat
  | [] => [n]
  | m :: ms => if n ≤ m then n :: m :: ms else m :: insertSorted n ms

/-- Python `sorted` on a list of numbers. -/
def sortNats (l : List Nat) : List Nat :=
  l.foldr insertSorted []

/-- The analysis dict built by `DisciplineAnalyzer.analyze`. -/
structure DisciplineAnalysis where
  total_disciplines : Nat
  total_hours : Nat
  by_load : List (String × Nat × Nat)
deriving DecidableEq, Repr

/-- `DisciplineAnalyzer.analyze`: errors when nothing is loaded,
    otherwise totals plus per-load-tier counts and hour sums, tiers in
    ascending `Hora_aula` order. -/
def analyze (ds : List Discipline) : Except String DisciplineAnalysis :=
  if ds.isEmpty then .error "Disciplinas não carregadas"
  else
    .ok
      { total_disciplines := ds.length
        total_hours := (ds.map (·.hora_aula)).sum
        by_load :=
          (sortNats ((ds.map (·.hora_aula)).eraseDups)).map fun L =>
            (toString L ++ "h",
              (ds.filter (·.hora_aula == L)).length,
              ((ds.filter (·.hora_aula == L)).map (·.hora_aula)).sum) }

/- ------------------------------------------------------------------ -/
/- schedule_manager.py : ScheduleGenerator -/

structure Slot where
  day : String
  time : String
  duration : Nat
deriving DecidableEq, Repr

def WEEKLY_SLOTS : List Slot :=
  [⟨"Segunda", "19:00-20:40", 100⟩,
   ⟨"Segunda", "21:00-22:40", 100⟩,
   ⟨"Quarta", "19:00-20:40", 100⟩,
   ⟨"Quarta", "21:00-22:40", 100⟩]

def BIWEEKLY_SLOTS : List Slot :=
  [⟨"Sexta", "19:00-20:40", 100⟩,
   ⟨"Sexta", "21:00-22:40", 100⟩,
   ⟨"Sábado", "08:00-09:40", 100⟩,
   ⟨"Sábado", "10:00-11:40", 100⟩,
   ⟨"Sábado", "13:00-14:40", 100⟩,
   ⟨"Sábado", "15:00-16:40", 100⟩]

/-- One slot-to-discipline assignment.  No code path of the source ever
    constructs one: both generators leave `assignments` empty. -/
structure Assignment where
  slot : String
  discipline : String
deriving DecidableEq, Repr

/-- The schedule dict built by the generators. -/
structure Schedule where
  type : String
  semester : String
  capacity : Nat
  slots : List Slot
  assignments : List Assignment
deriving DecidableEq, Repr

/-- `ScheduleGenerator.generate_weekly_schedule`.  The `disciplines`
    argument is accepted and never used; `assignments` is returned
    empty.  A semester key other than `sem1`/`sem2` would raise
    (`KeyError` on the capacity dict), hence the `Option`. -/
def generate_weekly_schedule (disciplines : List Discipline) (semester : String) :
    Option Schedule :=
  (List.lookup semester [("sem1", 64), ("sem2", 80)]).map fun cap =>
    { type := "weekly", semester := semester, capacity := cap
      slots := WEEKLY_SLOTS, assignments := [] }

/-- `ScheduleGenerator.generate_biweekly_schedule`, same shape. -/
def generate_biweekly_schedule (disciplines : List Discipline) (semester : String) :
    Option Schedule :=
  (List.lookup semester [("sem1", 96), ("sem2", 120)]).map fun cap =>
    { type := "biweekly", semester := semester, capacity := cap
      slots := BIWEEKLY_SLOTS, assignments := [] }

/- ------------------------------------------------------------------ -/
/- schedule_manager.py : ConflictValidator -/

/-- The report dict of `ConflictValidator.validate_schedule`. -/
structure ValidationReport where
  status : String
  conflicts : List String
  warnings : List String
deriving DecidableEq, Repr

/-- `ConflictValidator.validate_schedule`.  The argument models the
    schedule dict: `none` stands for a falsy (empty) dict, `some` for a
    populated one (every dict the generators return is non-empty).
    Only the emptiness check exists; no warning is ever emitted. -/
def validate_schedule (schedule : Option Schedule) : ValidationReport :=
  match schedule with
  | none => { status := "INVÁLIDO", conflicts := ["Horário vazio"], warnings := [] }
  | some _ => { status := "VÁLIDO", conflicts := [], warnings := [] }

/- ------------------------------------------------------------------ -/
/- schedule_manager.py : CalendarValidator and ScheduleManager.process -/

/-- The report of `CalendarValidator.validate` (after a successful
    load, so the `academic_calendar is None` branch is unreachable). -/
structure CalValidationReport where
  status : String
  errors : List String
  warnings : List String
deriving DecidableEq, Repr

/-- `CalendarValidator.validate` on a loaded dataframe. -/
def cal_validate (df : List (List Cell)) : CalValidationReport :=
  if df.isEmpty then
    { status := "INVÁLIDO", errors := ["Calendário vazio"], warnings := [] }
  else
    { status := "VÁLIDO", errors := [], warnings := [] }

/-- The `calendar_validation` step value: either a report, or the
    `{'status': 'ERRO'}` marker written when the CSV cannot be read. -/
inductive CalStep where
  | validated (r : CalValidationReport)
  | erro
deriving DecidableEq, Repr

/-- The `discipline_analysis` step value: the analysis dict, or the
    `{'error': 'Não foi possível carregar'}` marker. -/
inductive DiscStep where
  | analyzed (a : DisciplineAnalysis)
  | failed
deriving DecidableEq, Repr

/-- The result envelope assembled by `ScheduleManager.process`.
    Steps that a given run never reaches are `none`. -/
structure Results where
  course : String
  year : String
  timestamp : Nat
  calendar_validation : Option CalStep
  discipline_analysis : Option DiscStep
  schedule_generation : Option (Schedule × Schedule)
  conflict_validation : Option (ValidationReport × ValidationReport)
  export_status : Option String
deriving DecidableEq, Repr

/-- `ScheduleManager.process`.  The two sources are the already-read
    calendar CSV and discipline CSV (`none` = unreadable file, making
    the corresponding load return `False`); `now` is the wall-clock
    value `datetime.now().isoformat()` stamps into the envelope.  The
    overall `none` models the uncaught `KeyError` raised when `analyze`
    returns its error dict and the summary print indexes
    `['total_disciplines']` (only possible when every row was dropped). -/
def process (course year : String) (calSrc : Option (List (List Cell)))
    (discSrc : Option (List RawRow)) (now : Nat) : Option Results :=
  let base : Results :=
    { course := course, year := year, timestamp := now
      calendar_validation := none, discipline_analysis := none
      schedule_generation := none, conflict_validation := none
      export_status := none }
  match calSrc with
  | none => some { base with calendar_validation := some CalStep.erro }
  | some df =>
    let base1 := { base with calendar_validation := some (CalStep.validated (cal_validate df)) }
    match (match discSrc with
           | none => (false, [])
           | some rows => load_disciplines rows) with
    | (false, _) => some { base1 with discipline_analysis := some DiscStep.failed }
    | (true, ds) =>
      match analyze ds with
      | .error _ => none
      | .ok a =>
        match generate_weekly_schedule [] "sem1", generate_biweekly_schedule [] "sem1" with
        | some ws, some bs =>
          some { base1 with
                 discipline_analysis := some (DiscStep.analyzed a)
                 schedule_generation := some (ws, bs)
                 conflict_validation :=
                   some (validate_schedule (some ws), validate_schedule (some bs))
                 export_status := some "Pronto para exportação" }
        | _, _ => none

/-- The envelope with its timestamp field blanked, for comparing two
    runs up to the wall clock. -/
def eraseTimestamp (r : Results) : Results :=
  { r with timestamp := 0 }

/- ================================================================== -/
/- Theorems                                                            -/
/- ================================================================== -/

/- Helper lemmas on association-list lookup. -/

theorem lookup_append_left {α β : Type} [BEq α] (l₁ l₂ : List (α × β)) (k : α)
    (h : (l₁.lookup k).isSome) : (l₁ ++ l₂).lookup k = l₁.lookup k := by
  induction l₁ with
  | nil => simp [List.lookup] at h
  | cons p l ih =>
    cases p with
    | mk a b =>
      by_cases hk : k == a
      · simp [List.lookup, hk]
      · simp only [List.lookup, Bool.not_eq_true] at h ⊢
        simp only [List.cons_append, List.lookup, hk] at h ⊢
        exact ih h

theorem lookup_append_isSome {α β : Type} [BEq α] (l₁ l₂ : List (α × β)) (k : α)
    (h : ((l₁ ++ l₂).lookup k).isSome) :
    (l₁.lookup k).isSome ∨ (l₂.lookup k).isSome := by
  induction l₁ with
  | nil => simp at h; right; exact h
  | cons p l ih =>
    cases p with
    | mk a b =>
      by_cases hk : k == a
      · left; simp [List.lookup, hk]
      · simp only [List.cons_append, List.lookup, hk] at h
        rcases ih h with h' | h'
        · left; simp [List.lookup, hk]; exact h'
        · right; exact h'

theorem addMissing_lookup_left (mk : String → String → CalVal)
    (items : List (String × String)) :
    ∀ (m : List (String × CalVal)) (k : String), (m.lookup k).isSome →
      (addMissing mk m items).lookup k = m.lookup k := by
  induction items with
  | nil => intro m k _; rfl
  | cons it its ih =>
    intro m k hk
    show (addMissing mk (if (m.lookup it.1).isSome then m
          else m ++ [(it.1, mk it.1 it.2)]) its).lookup k = m.lookup k
    by_cases hin : (m.lookup it.1).isSome
    · rw [if_pos hin]; exact ih m k hk
    · rw [if_neg hin]
      rw [ih _ k (by rw [lookup_append_left _ _ _ hk]; exact hk)]
      exact lookup_append_left _ _ _ hk

theorem addMissing_lookup_isSome (mk : String → String → CalVal)
    (items : List (String × String)) :
    ∀ (m : List (String × CalVal)) (k : String),
      ((addMissing mk m items).lookup k).isSome →
      (m.lookup k).isSome ∨ k ∈ items.map Prod.fst := by
  induction items with
  | nil => intro m k h; left; exact h
  | cons it its ih =>
    intro m k h
    replace h : ((addMissing mk (if (m.lookup it.1).isSome then m
        else m ++ [(it.1, mk it.1 it.2)]) its).lookup k).isSome := h
    by_cases hin : (m.lookup it.1).isSome
    · rw [if_pos hin] at h
      rcases ih m k h with h' | h'
      · left; exact h'
      · right; simp [h']
    · rw [if_neg hin] at h
      rcases ih _ k h with h' | h'
      · rcases lookup_append_isSome _ _ _ h' with h'' | h''
        · left; exact h''
        · right
          have : k == it.1 := by
            by_contra hne
            simp [List.lookup, hne] at h''
          simp [List.map_cons]
          left
          exact eq_of_beq this
      · right; simp [h']

/- Helper lemmas on `get_holiday_name`. -/

theorem get_holiday_name_isSome_of_holiday (hm : HolidayTables) (d : Date)
    (h : is_holiday hm d = true) : (get_holiday_name hm d).isSome := by
  unfold is_holiday at h
  unfold get_holiday_name
  cases hl : hm.holidays.lookup (dateKey d) with
  | none => rw [hl] at h; simp at h
  | some n => simp

theorem get_holiday_name_isSome_of_optional (hm : HolidayTables) (d : Date)
    (h : is_optional_holiday hm d = true) : (get_holiday_name hm d).isSome := by
  unfold is_optional_holiday at h
  unfold get_holiday_name
  cases hl : hm.holidays.lookup (dateKey d) with
  | none =>
    cases ho : hm.optional_holidays.lookup (dateKey d) with
    | none => rw [ho] at h; simp at h
    | some n => simp
  | some n => simp

/- Helper lemma on `coerceRow`. -/

theorem coerceRow_none {r : RawRow} (h : toNum r.hora_aula = none) :
    coerceRow r = none := by
  unfold coerceRow; rw [h]; rfl

/-- C2.  For every schedule handed to `ConflictValidator.validate_schedule`
    (a populated dict `some _`, or a falsy one `none`), the returned
    report has status `INVÁLIDO` exactly when its conflicts list is
    non-empty, and a conflict-free (hence warnings-only) report has
    status `VÁLIDO`. -/
theorem validate_schedule_status_iff_conflicts (s : Option Schedule) :
    ((validate_schedule s).status = "INVÁLIDO" ↔ (validate_schedule s).conflicts ≠ [])
    ∧ ((validate_schedule s).conflicts = [] → (validate_schedule s).status = "VÁLIDO") := by
  cases s <;> constructor <;> simp [validate_schedule]

theorem validate_schedule_status_iff_conflicts_witness :
    (validate_schedule none).status = "INVÁLIDO"
    ∧ (validate_schedule (some ⟨"weekly", "sem1", 64, WEEKLY_SLOTS, []⟩)).status = "VÁLIDO" :=
  ⟨(validate_schedule_status_iff_conflicts none).1.mpr (by simp [validate_schedule]),
   (validate_schedule_status_iff_conflicts
      (some ⟨"weekly", "sem1", 64, WEEKLY_SLOTS, []⟩)).2 rfl⟩

/-- C10.  `HolidayManager.is_holiday` and `is_optional_holiday` key their
    tables by `strftime('%d/%m')`, so any two dates sharing day-of-month
    and month classify identically: the year never influences the
    outcome. -/
theorem holiday_classification_year_independent (hm : HolidayTables) (d₁ d₂ : Date)
    (hd : d₁.day = d₂.day) (hmn : d₁.month = d₂.month) :
    is_holiday hm d₁ = is_holiday hm d₂
    ∧ is_optional_holiday hm d₁ = is_optional_holiday hm d₂ := by
  unfold is_holiday is_optional_holiday dateKey
  rw [hd, hmn]
  exact ⟨rfl, rfl⟩

theorem holiday_classification_year_independent_witness :
    is_holiday defaultHolidayTables ⟨2026, 4, 21⟩
      = is_holiday defaultHolidayTables ⟨2027, 4, 21⟩
    ∧ is_optional_holiday defaultHolidayTables ⟨2026, 4, 21⟩
      = is_optional_holiday defaultHolidayTables ⟨2027, 4, 21⟩ :=
  holiday_classification_year_independent defaultHolidayTables
    ⟨2026, 4, 21⟩ ⟨2027, 4, 21⟩ rfl rfl

/-- C5 counterexample.  On an inverted range (end strictly before start)
    the calendar-building loop of `generate_calendar` runs zero times and
    returns the empty calendar as an ordinary success — not a distinct
    `InvalidRangeError` value: no failing path exists in the source. -/
theorem generate_calendar_inverted_range_no_error :
    generate_calendar_checked defaultHolidayTables ⟨2026, 1, 2⟩ ⟨2026, 1, 1⟩
      = Except.ok []
    ∧ generate_calendar_checked defaultHolidayTables ⟨2026, 1, 2⟩ ⟨2026, 1, 1⟩
      ≠ Except.error CalError.invalidRange := by
  constructor
  · rfl
  · intro h
    rw [show generate_calendar_checked defaultHolidayTables ⟨2026, 1, 2⟩ ⟨2026, 1, 1⟩
          = Except.ok [] from rfl] at h
    exact Except.noConfusion h

/-- C5 amended.  Calendar construction never fails: on every inverted
    range it succeeds with the empty calendar (no `InvalidRangeError`
    exists), and `generate_calendar` itself always uses the full year
    January 1 – December 31, a range that is never inverted. -/
theorem generate_calendar_never_fails :
    (∀ (hm : HolidayTables) (s e : Date), toOrdinal e < toOrdinal s →
        generate_calendar_checked hm s e = Except.ok [])
    ∧ (∀ (hm : HolidayTables) (year : Nat),
        generate_calendar_checked hm ⟨year, 1, 1⟩ ⟨year, 12, 31⟩
          = Except.ok (generate_calendar hm year)) := by
  constructor
  · intro hm s e h
    unfold generate_calendar_checked calendarDatesRange
    rw [show toOrdinal e + 1 - toOrdinal s = 0 by omega]
    rfl
  · intro hm year; rfl

theorem generate_calendar_never_fails_witness :
    generate_calendar_checked defaultHolidayTables ⟨2026, 5, 1⟩ ⟨2026, 4, 1⟩
      = Except.ok [] :=
  generate_calendar_never_fails.1 defaultHolidayTables ⟨2026, 5, 1⟩ ⟨2026, 4, 1⟩
    (by decide)

/-- C1.  The assignment engine is a stub: for a discipline requiring 24
    sessions, `generate_weekly_schedule` allocates nothing (its
    `assignments` list is empty) and the subsequent validation report
    carries no warning at all — so the discipline neither appears in its
    required number of assignments nor gets an `HourShortfall` warning,
    contradicting the specified coverage-or-shortfall guarantee. -/
theorem generate_weekly_schedule_stub_no_allocation :
    (generate_weekly_schedule
        [⟨Cell.text "Metodologia de Pesquisa", 40, some 24, Cell.text "MET", some 40⟩]
        "sem1").map
      (fun s => (s.assignments, (validate_schedule (some s)).warnings,
                 (validate_schedule (some s)).conflicts,
                 (validate_schedule (some s)).status))
      = some ([], [], [], "VÁLIDO") := rfl

/-- C6 counterexample.  A row whose hour cell is non-numeric is skipped
    without aborting the catalog (the numeric row still loads and the
    call succeeds), but nothing records the skip: the result is
    byte-identical for two different identifiers of the malformed row,
    so no warning carrying the row identifier can exist anywhere in the
    output. -/
theorem load_disciplines_silent_skip :
    load_disciplines
        [⟨Cell.text "Criminologia I", Cell.num 40, Cell.num 24, Cell.text "CRI1", Cell.num 40⟩,
         ⟨Cell.text "Linha X", Cell.text "quarenta", Cell.num 24, Cell.text "RX", Cell.num 40⟩]
      = load_disciplines
        [⟨Cell.text "Criminologia I", Cell.num 40, Cell.num 24, Cell.text "CRI1", Cell.num 40⟩,
         ⟨Cell.text "Linha Y", Cell.text "quarenta", Cell.num 24, Cell.text "RY", Cell.num 40⟩]
    ∧ load_disciplines
        [⟨Cell.text "Criminologia I", Cell.num 40, Cell.num 24, Cell.text "CRI1", Cell.num 40⟩,
         ⟨Cell.text "Linha X", Cell.text "quarenta", Cell.num 24, Cell.text "RX", Cell.num 40⟩]
      = (true, [⟨Cell.text "Criminologia I", 40, some 24, Cell.text "CRI1", some 40⟩]) :=
  ⟨rfl, rfl⟩

/-- C6 amended.  Catalog normalization never aborts on a non-empty
    source, loads every row whose hour cell is numeric, and drops rows
    with a non-numeric hour cell silently: the result does not depend on
    any other field of a dropped row, so no warning with the row
    identifier is recorded. -/
theorem load_disciplines_skips_silently :
    (∀ rows : List RawRow, rows ≠ [] → (load_disciplines rows).1 = true)
    ∧ (∀ (rows : List RawRow) (r : RawRow) (h : Nat), r ∈ stripHeader rows →
        toNum r.hora_aula = some h →
        (⟨r.disciplina, h, toNum r.encontros, r.sigla, toNum r.horas⟩ : Discipline)
          ∈ (load_disciplines rows).2)
    ∧ (∀ (pre post : List RawRow) (r₁ r₂ : RawRow), pre ≠ [] →
        toNum r₁.hora_aula = none → toNum r₂.hora_aula = none →
        load_disciplines (pre ++ r₁ :: post) = load_disciplines (pre ++ r₂ :: post)) := by
  refine ⟨?_, ?_, ?_⟩
  · intro rows hne
    cases rows with
    | nil => exact absurd rfl hne
    | cons r rs => rfl
  · intro rows r h hmem htn
    cases rows with
    | nil => simp [stripHeader] at hmem
    | cons r0 rs =>
      show _ ∈ (stripHeader (r0 :: rs)).filterMap coerceRow
      refine List.mem_filterMap.mpr ⟨r, hmem, ?_⟩
      unfold coerceRow
      rw [htn]
      rfl
  · intro pre post r₁ r₂ hpre h₁ h₂
    cases pre with
    | nil => exact absurd rfl hpre
    | cons p pre' =>
      show (true, (stripHeader (p :: (pre' ++ r₁ :: post))).filterMap coerceRow)
        = (true, (stripHeader (p :: (pre' ++ r₂ :: post))).filterMap coerceRow)
      simp only [stripHeader]
      by_cases hp : p.disciplina = Cell.text "Disciplina"
      · rw [if_pos hp, if_pos hp]
        simp [List.filterMap_append, List.filterMap_cons, coerceRow_none h₁,
          coerceRow_none h₂]
      · rw [if_neg hp, if_neg hp]
        simp [List.filterMap_append, List.filterMap_cons, coerceRow_none h₁,
          coerceRow_none h₂]

theorem load_disciplines_skips_silently_witness :
    (load_disciplines
        [⟨Cell.text "Criminologia I", Cell.num 40, Cell.num 24, Cell.text "CRI1", Cell.num 40⟩]).1
      = true
    ∧ (⟨Cell.text "Criminologia I", 40, some 24, Cell.text "CRI1", some 40⟩ : Discipline)
        ∈ (load_disciplines
            [⟨Cell.text "Criminologia I", Cell.num 40, Cell.num 24, Cell.text "CRI1", Cell.num 40⟩]).2
    ∧ load_disciplines
        [⟨Cell.text "C1", Cell.num 40, Cell.num 24, Cell.text "S1", Cell.num 40⟩,
         ⟨Cell.text "bad", Cell.text "x", Cell.num 1, Cell.text "B", Cell.num 1⟩]
      = load_disciplines
        [⟨Cell.text "C1", Cell.num 40, Cell.num 24, Cell.text "S1", Cell.num 40⟩,
         ⟨Cell.text "worse", Cell.text "y", Cell.num 2, Cell.text "W", Cell.num 2⟩] :=
  ⟨load_disciplines_skips_silently.1 _ (by simp),
   load_disciplines_skips_silently.2.1 _
     ⟨Cell.text "Criminologia I", Cell.num 40, Cell.num 24, Cell.text "CRI1", Cell.num 40⟩
     40 (by simp [stripHeader]) rfl,
   load_disciplines_skips_silently.2.2
     [⟨Cell.text "C1", Cell.num 40, Cell.num 24, Cell.text "S1", Cell.num 40⟩] []
     ⟨Cell.text "bad", Cell.text "x", Cell.num 1, Cell.text "B", Cell.num 1⟩
     ⟨Cell.text "worse", Cell.text "y", Cell.num 2, Cell.text "W", Cell.num 2⟩
     (by simp) rfl rfl⟩

/- Helper lemmas on date order and the day-by-day iteration. -/

instance : IsTrans Date dateLt :=
  ⟨by intro a b c h₁ h₂; unfold dateLt at *; omega⟩

theorem dateLt_nextDate (d : Date) : dateLt d (nextDate d) := by
  unfold dateLt nextDate
  split_ifs <;> simp

theorem chain'_datesFrom (n : Nat) : ∀ c, List.Chain' dateLt (datesFrom c n) := by
  induction n with
  | zero => intro c; exact List.chain'_nil
  | succ m ih =>
    intro c
    cases m with
    | zero => exact List.chain'_singleton c
    | succ k => exact List.Chain'.cons (dateLt_nextDate c) (ih (nextDate c))

/-- C7.  The sequence of letive days produced by
    `CalendarReader._extract_letive_days` is strictly increasing in
    chronological date order (every pair, in particular every adjacent
    pair, satisfies the strict `(date, slot start time)` lexicographic
    order of the specification: the dates themselves already strictly
    increase, so the first disjunct always holds). -/
theorem extract_letive_days_strictly_increasing (rows : List (List Cell)) :
    List.Pairwise dateLt (extract_letive_days rows) :=
  List.Pairwise.sublist (List.filter_sublist _)
    (List.chain'_iff_pairwise.mp (chain'_datesFrom _ _))

/-- C8.  `HolidayManager.mark_holidays_in_calendar` never overwrites: a
    key already present in the input dict keeps its original value in
    the output, and every key of the output was either in the input or
    is a (mandatory or optional) holiday key.  Purity of the embedding
    reflects the `.copy()` at the top of the method: the input dict is
    not modified. -/
theorem mark_holidays_preserves_existing (hm : HolidayTables)
    (cal : List (String × CalVal)) (k : String) :
    ((cal.lookup k).isSome →
      (mark_holidays_in_calendar hm cal).lookup k = cal.lookup k)
    ∧ (((mark_holidays_in_calendar hm cal).lookup k).isSome →
      (cal.lookup k).isSome ∨ k ∈ hm.holidays.map Prod.fst
        ∨ k ∈ hm.optional_holidays.map Prod.fst) := by
  constructor
  · intro h
    unfold mark_holidays_in_calendar
    rw [addMissing_lookup_left _ _ _ _
      (by rw [addMissing_lookup_left _ _ _ _ h]; exact h)]
    exact addMissing_lookup_left _ _ _ _ h
  · intro h
    unfold mark_holidays_in_calendar at h
    rcases addMissing_lookup_isSome _ _ _ _ h with h' | h'
    · rcases addMissing_lookup_isSome _ _ _ _ h' with h'' | h''
      · left; exact h''
      · right; left; exact h''
    · right; right; exact h'

theorem mark_holidays_preserves_existing_witness :
    (mark_holidays_in_calendar defaultHolidayTables
        [("05/07", CalVal.other "aula inaugural")]).lookup "05/07"
      = some (CalVal.other "aula inaugural") := by
  have h := (mark_holidays_preserves_existing defaultHolidayTables
      [("05/07", CalVal.other "aula inaugural")] "05/07").1 (by decide)
  rw [h]
  rfl

/-- C9.  In every calendar produced by `generate_calendar` no entry has
    both holiday flags set (the `elif` makes them exclusive), every
    flagged entry carries a non-null holiday name, and a date present in
    both holiday tables is marked as a mandatory holiday only. -/
theorem generate_calendar_flags_exclusive :
    (∀ (hm : HolidayTables) (year : Nat) (e : CalendarEntry),
        e ∈ generate_calendar hm year →
        ¬(e.is_holiday = true ∧ e.is_optional_holiday = true)
        ∧ ((e.is_holiday = true ∨ e.is_optional_holiday = true) →
            e.holiday_name ≠ none))
    ∧ (∀ (hm : HolidayTables) (d : Date), is_holiday hm d = true →
        is_optional_holiday hm d = true →
        (mkEntry hm d).is_holiday = true
          ∧ (mkEntry hm d).is_optional_holiday = false) := by
  have hent : ∀ (hm : HolidayTables) (d : Date),
      ¬((mkEntry hm d).is_holiday = true ∧ (mkEntry hm d).is_optional_holiday = true)
      ∧ (((mkEntry hm d).is_holiday = true ∨ (mkEntry hm d).is_optional_holiday = true)
          → (mkEntry hm d).holiday_name ≠ none) := by
    intro hm d
    by_cases hh : is_holiday hm d = true
    · have hmk : mkEntry hm d =
          { date := dateFull d, day_of_week := dayName (pyWeekday d)
            is_holiday := true, is_optional_holiday := false
            holiday_name := get_holiday_name hm d } := by
        simp only [mkEntry]; rw [if_pos hh]
      rw [hmk]
      refine ⟨by simp, fun _ => ?_⟩
      exact Option.ne_none_iff_isSome.mpr (get_holiday_name_isSome_of_holiday hm d hh)
    · by_cases ho : is_optional_holiday hm d = true
      · have hmk : mkEntry hm d =
            { date := dateFull d, day_of_week := dayName (pyWeekday d)
              is_holiday := false, is_optional_holiday := true
              holiday_name := get_holiday_name hm d } := by
          simp only [mkEntry]; rw [if_neg hh, if_pos ho]
        rw [hmk]
        refine ⟨by simp, fun _ => ?_⟩
        exact Option.ne_none_iff_isSome.mpr (get_holiday_name_isSome_of_optional hm d ho)
      · have hmk : mkEntry hm d =
            { date := dateFull d, day_of_week := dayName (pyWeekday d)
              is_holiday := false, is_optional_holiday := false
              holiday_name := none } := by
          simp only [mkEntry]; rw [if_neg hh, if_neg ho]
        rw [hmk]
        exact ⟨by simp, by simp⟩
  constructor
  · intro hm year e he
    obtain ⟨d, _, rfl⟩ := List.mem_map.mp he
    exact hent hm d
  · intro hm d hh ho
    have hmk : mkEntry hm d =
        { date := dateFull d, day_of_week := dayName (pyWeekday d)
          is_holiday := true, is_optional_holiday := false
          holiday_name := get_holiday_name hm d } := by
      simp only [mkEntry]; rw [if_pos hh]
    rw [hmk]
    exact ⟨rfl, rfl⟩

theorem generate_calendar_flags_exclusive_witness :
    (mkEntry defaultHolidayTables ⟨2026, 1, 1⟩).holiday_name ≠ none
    ∧ (mkEntry ⟨[("25/12", "Natal")], [("25/12", "Ponto Facultativo")]⟩
        ⟨2026, 12, 25⟩).is_holiday = true
    ∧ (mkEntry ⟨[("25/12", "Natal")], [("25/12", "Ponto Facultativo")]⟩
        ⟨2026, 12, 25⟩).is_optional_holiday = false := by
  have h2 := generate_calendar_flags_exclusive.2
    ⟨[("25/12", "Natal")], [("25/12", "Ponto Facultativo")]⟩ ⟨2026, 12, 25⟩
    (by decide) (by decide)
  exact ⟨(generate_calendar_flags_exclusive.1 defaultHolidayTables 2026 _
      (by decide)).2 (Or.inl (by decide)), h2.1, h2.2⟩

/-- C4 counterexample.  Saturday 2026-01-03 matches no holiday-table
    entry, yet the calendar model lists it among the non-working days
    and never among the working days: `CalendarWithHolidays` takes no
    cohort mode and blanket-excludes every Saturday, so a biweekly
    cohort's holiday-free Saturday is not teaching-eligible. -/
theorem saturday_blanket_excluded :
    (mkEntry defaultHolidayTables ⟨2026, 1, 3⟩).is_holiday = false
    ∧ (mkEntry defaultHolidayTables ⟨2026, 1, 3⟩).is_optional_holiday = false
    ∧ (mkEntry defaultHolidayTables ⟨2026, 1, 3⟩).day_of_week = "Saturday"
    ∧ "03/01/2026" ∈ get_non_working_days (generate_calendar defaultHolidayTables 2026)
    ∧ "03/01/2026" ∉ get_working_days (generate_calendar defaultHolidayTables 2026)
        "01/01/2026" "31/12/2026" := by
  refine ⟨rfl, rfl, rfl, by decide, by decide⟩

/-- C4 amended.  Weekend exclusion in the calendar model is global, not
    per cohort mode: every weekend-day entry of a generated calendar is
    listed among the non-working days regardless of holiday status, and
    every working day stems from a non-weekend, non-holiday entry (so
    weekly cohorts indeed never get weekend days, but neither do
    biweekly ones — there is no cohort-mode parameter). -/
theorem weekend_exclusion_global :
    (∀ (hm : HolidayTables) (year : Nat) (e : CalendarEntry),
        e ∈ generate_calendar hm year →
        (e.day_of_week = "Saturday" ∨ e.day_of_week = "Sunday") →
        e.date ∈ get_non_working_days (generate_calendar hm year))
    ∧ (∀ (cal : List CalendarEntry) (s₁ s₂ d : String),
        d ∈ get_working_days cal s₁ s₂ →
        ∃ e, e ∈ cal ∧ e.date = d ∧ e.day_of_week ≠ "Saturday"
          ∧ e.day_of_week ≠ "Sunday" ∧ e.is_holiday = false
          ∧ e.is_optional_holiday = false) := by
  constructor
  · intro hm year e he hwk
    unfold get_non_working_days
    refine List.mem_filterMap.mpr ⟨e, he, ?_⟩
    by_cases hh : (e.is_holiday || e.is_optional_holiday) = true
    · rw [if_pos hh]
    · have hcond : (e.day_of_week == "Saturday" || e.day_of_week == "Sunday") = true := by
        rcases hwk with h | h <;> simp [h]
      rw [if_neg hh, if_pos hcond]
  · intro cal s₁ s₂ d hd
    unfold get_working_days at hd
    obtain ⟨e, he, hf⟩ := List.mem_filterMap.mp hd
    by_cases hc : (!e.is_holiday && !e.is_optional_holiday
        && !(e.day_of_week == "Saturday" || e.day_of_week == "Sunday")) = true
    · rw [if_pos hc] at hf
      obtain rfl := Option.some.inj hf
      simp only [Bool.and_eq_true, Bool.not_eq_true', Bool.or_eq_false_iff,
        beq_eq_false_iff_ne] at hc
      obtain ⟨⟨hhol, hopt⟩, hwk1, hwk2⟩ := hc
      exact ⟨e, he, rfl, hwk1, hwk2, hhol, hopt⟩
    · rw [if_neg hc] at hf
      exact absurd hf (by simp)

theorem weekend_exclusion_global_witness :
    (mkEntry defaultHolidayTables ⟨2026, 1, 4⟩).date
      ∈ get_non_working_days (generate_calendar defaultHolidayTables 2026) :=
  weekend_exclusion_global.1 defaultHolidayTables 2026 _ (by decide)
    (Or.inr (by decide))

/-- C3 counterexample.  Two runs of `ScheduleManager.process` on the
    same calendar and discipline sources but at different wall-clock
    instants yield different result envelopes: the envelope embeds
    `datetime.now().isoformat()`. -/
theorem process_envelopes_differ_across_runs :
    process "criminologia" "2026-2027" (some [[Cell.num 1]])
        (some [⟨Cell.text "Criminologia I", Cell.num 40, Cell.num 24,
                Cell.text "CRI1", Cell.num 40⟩]) 0
      ≠ process "criminologia" "2026-2027" (some [[Cell.num 1]])
        (some [⟨Cell.text "Criminologia I", Cell.num 40, Cell.num 24,
                Cell.text "CRI1", Cell.num 40⟩]) 1 := by
  decide

/-- C3 amended.  The pipeline is deterministic up to the embedded
    timestamp: for fixed calendar and discipline sources, two runs agree
    on every field of the result envelope except `timestamp` (and hence
    are byte-identical only when the wall clock agrees). -/
theorem process_deterministic_up_to_timestamp
    (course year : String) (calSrc : Option (List (List Cell)))
    (discSrc : Option (List RawRow)) (t₁ t₂ : Nat) :
    (process course year calSrc discSrc t₁).map eraseTimestamp
      = (process course year calSrc discSrc t₂).map eraseTimestamp := by
  cases calSrc with
  | none => rfl
  | some df =>
    cases discSrc with
    | none => rfl
    | some rows =>
      simp only [process]
      split
      · rfl
      · split
        · rfl
        · rfl
